import Mathlib

/-!
Verification development for the nutri-fit backend (NestJS + TypeORM CRUD
services for the Users and WorkoutDays resources).

The repository's services are shallowly embedded here: the TypeORM repository
is modelled as a list of entity rows inside an explicit `Store`, `async` service
methods become pure functions threading the store, thrown HTTP exceptions become
an `Err` sum returned through `Except`, and JavaScript `Date` values become
natural numbers counting milliseconds since the Unix epoch.  Each service method
returns the pair of its outcome and the store after the call; all repository
writes (`repository.save`) are explicit, so an error outcome carries exactly the
store that existed when the exception was thrown.

JavaScript-specific behaviour is embedded explicitly:
 * `if (x)` on an optional string/number field is a truthiness test: `undefined`,
   the empty string and `0` are falsy (`truthyStr` / `truthyNat` below);
 * `x !== undefined` is an `Option.isSome` test;
 * `NaN` identifiers (a non-numeric `:id` route parameter parsed with `+id`)
   are modelled by passing `none` for the id argument of a service method;
 * `String.prototype.trim` / `toLowerCase` are `jsTrim` / `jsToLower`;
 * TypeORM `Like('%x%')` on the default SQLite driver is an ASCII
   case-insensitive substring test (`sqlLike`);
 * `@CreateDateColumn` / `@UpdateDateColumn` are modelled by every service
   method taking the current time `now` and `save` stamping `updatedAt := now`
   (and `createdAt := now` on insert);
 * `Date.prototype.toISOString` is `toISOString`, a concrete
   `YYYY-MM-DDTHH:MM:SS.sssZ` renderer over epoch milliseconds.
-/

namespace NutriFit

/-- JavaScript `String.prototype.trim`: strips leading and trailing
whitespace (structural implementation over the character list). -/
def jsTrim (s : String) : String :=
  String.mk
    (((s.toList.dropWhile Char.isWhitespace).reverse.dropWhile
        Char.isWhitespace).reverse)

/-- JavaScript `String.prototype.toLowerCase` (ASCII case mapping suffices for
the repository's email strings). -/
def jsToLower (s : String) : String := String.mk (s.toList.map Char.toLower)

/-- JavaScript truthiness of an optional string field: `undefined` and the
empty string are falsy. -/
def truthyStr : Option String → Bool
  | none => false
  | some s => !(s == "")

/-- JavaScript truthiness of an optional number field: `undefined` and `0` are
falsy. -/
def truthyNat : Option Nat → Bool
  | none => false
  | some n => n != 0

/-- TypeORM `Like('%pat%')` under the default SQLite collation: ASCII
case-insensitive substring containment. -/
def sqlLike (pat s : String) : Bool :=
  decide (List.IsInfix (jsToLower pat).toList (jsToLower s).toList)

/-- Decimal rendering of `n` left-padded with zeros to `width` digits. -/
def natPad (width n : Nat) : String :=
  let s := toString n
  String.mk (List.replicate (width - s.length) '0') ++ s

/-- Gregorian (year, month, day) of day number `z0` counted from 1970-01-01,
the civil-from-days algorithm used by JavaScript date rendering. -/
def civilFromDays (z0 : Nat) : Nat × Nat × Nat :=
  let z := z0 + 719468
  let era := z / 146097
  let doe := z % 146097
  let yoe := (doe - doe / 1460 + doe / 36524 - doe / 146096) / 365
  let y := yoe + era * 400
  let doy := doe - (365 * yoe + yoe / 4 - yoe / 100)
  let mp := (5 * doy + 2) / 153
  let d := doy - (153 * mp + 2) / 5 + 1
  let m := if mp < 10 then mp + 3 else mp - 9
  (if m ≤ 2 then y + 1 else y, m, d)

/-- JavaScript `Date.prototype.toISOString` over milliseconds since the Unix
epoch: renders `YYYY-MM-DDTHH:MM:SS.sssZ`. -/
def toISOString (ms : Nat) : String :=
  let rem := ms % 86400000
  let ymd := civilFromDays (ms / 86400000)
  natPad 4 ymd.1 ++ "-" ++ natPad 2 ymd.2.1 ++ "-" ++ natPad 2 ymd.2.2 ++ "T" ++
    natPad 2 (rem / 3600000) ++ ":" ++ natPad 2 (rem / 60000 % 60) ++ ":" ++
    natPad 2 (rem / 1000 % 60) ++ "." ++ natPad 3 (rem % 1000) ++ "Z"

/-- The thrown HTTP exceptions of the services
(`BadRequestException` / `NotFoundException` / `ConflictException`),
with their messages. -/
inductive Err where
  | badRequest (msg : String)
  | notFound (msg : String)
  | conflict (msg : String)
deriving Repr, DecidableEq

/-- Is an outcome the `ConflictException` branch? -/
def isConflict {α : Type} : Except Err α → Bool
  | .error (.conflict _) => true
  | _ => false

/-- `src/users/entities/user.entity.ts` (`UserEntity`): id, name, email, age,
isActive plus the `@CreateDateColumn`/`@UpdateDateColumn` timestamps. -/
structure UserEntity where
  id : Nat
  name : String
  email : String
  age : Nat
  isActive : Bool
  createdAt : Nat
  updatedAt : Nat
deriving Repr, DecidableEq

/-- `src/workout-days/entities/workout-day.entity.ts` (`WorkoutDayEntity`). -/
structure WorkoutDayEntity where
  id : Nat
  name : String
  description : Option String
  dayOfWeek : Nat
  durationMinutes : Nat
  intensityLevel : Nat
  workoutType : String
  isActive : Bool
  userId : Nat
  createdAt : Nat
  updatedAt : Nat
deriving Repr, DecidableEq

/-- The persisted state both services operate on: the `users` and
`workout_days` tables plus the auto-increment counters of their
`@PrimaryGeneratedColumn` ids. -/
structure Store where
  users : List UserEntity
  workouts : List WorkoutDayEntity
  nextUserId : Nat
  nextWorkoutId : Nat
deriving Repr, DecidableEq

/-- TypeORM `repository.save` on an entity fetched from the table: the row with
the entity's id is overwritten in place. -/
def Repo.save {α : Type} (idOf : α → Nat) (l : List α) (u : α) : List α :=
  l.map (fun v => if idOf v == idOf u then u else v)

/-- `UserEntity.deactivate` composed with the timestamp refresh the save
performs: the row written back by a soft delete at time `now`. -/
def UserEntity.deactivate (u : UserEntity) (now : Nat) : UserEntity :=
  { u with isActive := false, updatedAt := now }

/-- `WorkoutDayEntity.deactivate` composed with the timestamp refresh the save
performs: the row written back by a soft delete at time `now`. -/
def WorkoutDayEntity.deactivate (w : WorkoutDayEntity) (now : Nat) :
    WorkoutDayEntity :=
  { w with isActive := false, updatedAt := now }

/-- `User` interface returned by `UsersService` (`user.interface.ts`). -/
structure User where
  id : Nat
  name : String
  email : String
  age : Nat
  isActive : Bool
deriving Repr, DecidableEq

/-- `CreateUserDto` of `src/users/dto/user.dto.ts` (required name, email,
age). -/
structure CreateUserDto where
  name : String
  email : String
  age : Nat
deriving Repr, DecidableEq

/-- `UpdateUserDto`: every field optional. -/
structure UpdateUserDto where
  name : Option String
  email : Option String
  age : Option Nat
  isActive : Option Bool
deriving Repr, DecidableEq

/-- `SearchUserDto`: optional filters. -/
structure SearchUserDto where
  name : Option String
  email : Option String
  age : Option Nat
  isActive : Option Bool
deriving Repr, DecidableEq

namespace UsersService

/-- `UsersService.mapEntityToInterface`. -/
def mapEntityToInterface (e : UserEntity) : User :=
  { id := e.id, name := e.name, email := e.email, age := e.age,
    isActive := e.isActive }

/-- `UsersService.findAll`: all users with `isActive: true`, ordered by id
ascending, mapped to the interface. -/
def findAll (s : Store) : List User :=
  ((s.users.filter (fun u => u.isActive)).insertionSort
      (fun a b => a.id ≤ b.id)).map mapEntityToInterface

/-- The dynamically built `whereConditions` of `UsersService.search`, as the
row predicate it denotes.  `if (dto.name)` and `if (dto.age)` are JavaScript
truthiness tests; `isActive` is compared under `!== undefined`. -/
def searchPred (q : SearchUserDto) (u : UserEntity) : Bool :=
  (match q.name with
    | some n => if n == "" then true else sqlLike n u.name
    | none => true) &&
  (match q.email with
    | some e => if e == "" then true else sqlLike e u.email
    | none => true) &&
  (match q.age with
    | some a => if a == 0 then true else u.age == a
    | none => true) &&
  (match q.isActive with
    | some b => u.isActive == b
    | none => true)

/-- `UsersService.search`: rows matching the built `where` conditions, ordered
by `createdAt` descending. -/
def search (s : Store) (q : SearchUserDto) : List User :=
  ((s.users.filter (searchPred q)).insertionSort
      (fun a b => b.createdAt ≤ a.createdAt)).map mapEntityToInterface

/-- `UsersService.findOne`.  `id = none` models a `NaN` route parameter
(`isNaN(id)` branch). -/
def findOne (s : Store) (id : Option Nat) : Except Err User × Store :=
  match id with
  | none => (.error (.badRequest "ID debe ser un número válido"), s)
  | some i =>
    match s.users.find? (fun u => u.id == i) with
    | none =>
      (.error (.notFound ("Usuario con ID " ++ toString i ++ " no encontrado")), s)
    | some u => (.ok (mapEntityToInterface u), s)

/-- `UsersService.create`: the duplicate-email lookup uses the RAW request
email (`createUserDto.email`), while the persisted row stores the trimmed,
lowercased email. -/
def create (s : Store) (dto : CreateUserDto) (now : Nat) :
    Except Err User × Store :=
  match s.users.find? (fun u => u.email == dto.email) with
  | some _ =>
    (.error (.conflict ("Ya existe un usuario con el email " ++ dto.email)), s)
  | none =>
    let u : UserEntity :=
      { id := s.nextUserId
        name := jsTrim dto.name
        email := jsTrim (jsToLower dto.email)
        age := dto.age
        isActive := true
        createdAt := now
        updatedAt := now }
    (.ok (mapEntityToInterface u),
      { s with users := s.users ++ [u], nextUserId := s.nextUserId + 1 })

/-- The four conditional field assignments of `UsersService.update`, as one
record update (each field is assigned at most once, so the sequential
`if (dto.f) user.f = ...` statements commute into independent updates).
`name`/`email` are guarded by truthiness (the empty string is skipped),
`age`/`isActive` by `!== undefined`. -/
def applyUserUpdate (u : UserEntity) (d : UpdateUserDto) : UserEntity :=
  { u with
    name := match d.name with
      | some n => if n == "" then u.name else jsTrim n
      | none => u.name
    email := match d.email with
      | some e => if e == "" then u.email else jsTrim (jsToLower e)
      | none => u.email
    age := d.age.getD u.age
    isActive := d.isActive.getD u.isActive }

/-- `UsersService.update`: id check, lookup, email-uniqueness check on the raw
new email (excluding the row itself), then partial field update and save. -/
def update (s : Store) (id : Option Nat) (d : UpdateUserDto) (now : Nat) :
    Except Err User × Store :=
  match id with
  | none => (.error (.badRequest "ID debe ser un número válido"), s)
  | some i =>
    match s.users.find? (fun u => u.id == i) with
    | none =>
      (.error (.notFound ("Usuario con ID " ++ toString i ++ " no encontrado")), s)
    | some u =>
      let emailConflict : Bool :=
        match d.email with
        | some e =>
          if e == "" then false
          else
            match s.users.find? (fun v => v.email == e) with
            | some v => v.id != i
            | none => false
        | none => false
      if emailConflict then
        (.error (.conflict ("Ya existe otro usuario con el email " ++
          (d.email.getD ""))), s)
      else
        let u2 : UserEntity := { applyUserUpdate u d with updatedAt := now }
        (.ok (mapEntityToInterface u2),
          { s with users := Repo.save UserEntity.id s.users u2 })

/-- `UsersService.remove`: soft delete; `Conflict` when the row is already
inactive. -/
def remove (s : Store) (id : Option Nat) (now : Nat) :
    Except Err User × Store :=
  match id with
  | none => (.error (.badRequest "ID debe ser un número válido"), s)
  | some i =>
    match s.users.find? (fun u => u.id == i) with
    | none =>
      (.error (.notFound ("Usuario con ID " ++ toString i ++ " no encontrado")), s)
    | some u =>
      if u.isActive then
        let u2 : UserEntity := { u with isActive := false, updatedAt := now }
        (.ok (mapEntityToInterface u2),
          { s with users := Repo.save UserEntity.id s.users u2 })
      else
        (.error (.conflict ("Usuario con ID " ++ toString i ++
          " ya estaba eliminado")), s)

end UsersService

/-- The `days` lookup of `WorkoutDaysService.getDayName` and
`WorkoutDayEntity.getDayName` (identical bodies): index 0 is the empty
string. -/
def dayNames : List String :=
  ["", "Lunes", "Martes", "Miércoles", "Jueves", "Viernes", "Sábado", "Domingo"]

/-- JavaScript array indexing `l[i]`: `undefined` outside `0 ≤ i < length`. -/
def jsIndex (l : List String) (i : Int) : Option String :=
  if h : 0 ≤ i ∧ i.toNat < l.length then some (l.get ⟨i.toNat, h.2⟩) else none

/-- `getDayName(dayNumber)` = `days[dayNumber] || 'Día inválido'`: the
out-of-range `undefined` and the falsy empty string at index 0 both fall back
to the sentinel. -/
def getDayName (dayNumber : Int) : String :=
  match jsIndex dayNames dayNumber with
  | some s => if s == "" then "Día inválido" else s
  | none => "Día inválido"

/-- `WorkoutDay` interface returned by `WorkoutDaysService`
(`workout-day.interface.ts`). -/
structure WorkoutDay where
  id : Nat
  name : String
  description : Option String
  dayOfWeek : Nat
  durationMinutes : Nat
  intensityLevel : Nat
  workoutType : String
  isActive : Bool
  userId : Nat
deriving Repr, DecidableEq

/-- `CreateWorkoutDayDto`: required name, dayOfWeek, durationMinutes, userId;
optional description, intensityLevel, workoutType. -/
structure CreateWorkoutDayDto where
  name : String
  description : Option String
  dayOfWeek : Nat
  durationMinutes : Nat
  intensityLevel : Option Nat
  workoutType : Option String
  userId : Nat
deriving Repr, DecidableEq

/-- `UpdateWorkoutDayDto`: every field optional. -/
structure UpdateWorkoutDayDto where
  name : Option String
  description : Option String
  dayOfWeek : Option Nat
  durationMinutes : Option Nat
  intensityLevel : Option Nat
  workoutType : Option String
  isActive : Option Bool
deriving Repr, DecidableEq

namespace WorkoutDaysService

/-- `WorkoutDaysService.mapEntityToInterface`. -/
def mapEntityToInterface (e : WorkoutDayEntity) : WorkoutDay :=
  { id := e.id, name := e.name, description := e.description,
    dayOfWeek := e.dayOfWeek, durationMinutes := e.durationMinutes,
    intensityLevel := e.intensityLevel, workoutType := e.workoutType,
    isActive := e.isActive, userId := e.userId }

/-- `WorkoutDaysService.validateUserExists`: `findOne({ where: { id: userId,
isActive: true } })` — the lookup the service performs on the users table. -/
def findActiveUser (s : Store) (userId : Nat) : Option UserEntity :=
  s.users.find? (fun u => u.id == userId && u.isActive)

/-- `WorkoutDaysService.create`: validates the owning user exists and is
active, rejects a second active workout for the same `(userId, dayOfWeek)`
pair, then inserts with defaults `intensityLevel ?? 3` and
`workoutType ?? 'Fuerza'`. -/
def create (s : Store) (dto : CreateWorkoutDayDto) (now : Nat) :
    Except Err WorkoutDay × Store :=
  match findActiveUser s dto.userId with
  | none =>
    (.error (.notFound ("Usuario con ID " ++ toString dto.userId ++
      " no encontrado o no está activo")), s)
  | some _ =>
    match s.workouts.find? (fun w =>
        w.userId == dto.userId && w.dayOfWeek == dto.dayOfWeek && w.isActive) with
    | some _ =>
      (.error (.conflict ("Ya existe un entrenamiento activo para el " ++
        getDayName (Int.ofNat dto.dayOfWeek))), s)
    | none =>
      let w : WorkoutDayEntity :=
        { id := s.nextWorkoutId
          name := jsTrim dto.name
          description := dto.description.map jsTrim
          dayOfWeek := dto.dayOfWeek
          durationMinutes := dto.durationMinutes
          intensityLevel := dto.intensityLevel.getD 3
          workoutType := dto.workoutType.getD "Fuerza"
          isActive := true
          userId := dto.userId
          createdAt := now
          updatedAt := now }
      (.ok (mapEntityToInterface w),
        { s with workouts := s.workouts ++ [w],
                 nextWorkoutId := s.nextWorkoutId + 1 })

/-- The seven conditional field assignments of `WorkoutDaysService.update`, as
one record update.  `name` is guarded by truthiness; the remaining fields by
`!== undefined` (`description` is re-trimmed when supplied). -/
def applyWorkoutUpdate (w : WorkoutDayEntity) (d : UpdateWorkoutDayDto) :
    WorkoutDayEntity :=
  { w with
    name := match d.name with
      | some n => if n == "" then w.name else jsTrim n
      | none => w.name
    description := match d.description with
      | some ds => some (jsTrim ds)
      | none => w.description
    dayOfWeek := d.dayOfWeek.getD w.dayOfWeek
    durationMinutes := d.durationMinutes.getD w.durationMinutes
    intensityLevel := d.intensityLevel.getD w.intensityLevel
    workoutType := d.workoutType.getD w.workoutType
    isActive := d.isActive.getD w.isActive }

/-- `WorkoutDaysService.update`: id check, lookup, then the day-of-week
conflict check — run only when a truthy `dayOfWeek` differing from the stored
one is supplied, and ignoring a hit on the row itself — then partial update
and save.  The owning user is NOT re-validated here. -/
def update (s : Store) (id : Option Nat) (d : UpdateWorkoutDayDto) (now : Nat) :
    Except Err WorkoutDay × Store :=
  match id with
  | none => (.error (.badRequest "ID debe ser un número válido"), s)
  | some i =>
    match s.workouts.find? (fun w => w.id == i) with
    | none =>
      (.error (.notFound ("Día de entrenamiento con ID " ++ toString i ++
        " no encontrado")), s)
    | some w =>
      let proceed : Except Err WorkoutDay × Store :=
        let w2 : WorkoutDayEntity := { applyWorkoutUpdate w d with updatedAt := now }
        (.ok (mapEntityToInterface w2),
          { s with workouts := Repo.save WorkoutDayEntity.id s.workouts w2 })
      match d.dayOfWeek with
      | some dow =>
        if dow != 0 && dow != w.dayOfWeek then
          match s.workouts.find? (fun v =>
              v.userId == w.userId && v.dayOfWeek == dow && v.isActive) with
          | some v =>
            if v.id != i then
              (.error (.conflict ("Ya existe otro entrenamiento activo para el " ++
                getDayName (Int.ofNat dow))), s)
            else proceed
          | none => proceed
        else proceed
      | none => proceed

/-- `WorkoutDaysService.remove`: soft delete; `Conflict` when the row is
already inactive. -/
def remove (s : Store) (id : Option Nat) (now : Nat) :
    Except Err WorkoutDay × Store :=
  match id with
  | none => (.error (.badRequest "ID debe ser un número válido"), s)
  | some i =>
    match s.workouts.find? (fun w => w.id == i) with
    | none =>
      (.error (.notFound ("Día de entrenamiento con ID " ++ toString i ++
        " no encontrado")), s)
    | some w =>
      if w.isActive then
        let w2 : WorkoutDayEntity := { w with isActive := false, updatedAt := now }
        (.ok (mapEntityToInterface w2),
          { s with workouts := Repo.save WorkoutDayEntity.id s.workouts w2 })
      else
        (.error (.conflict ("Día de entrenamiento con ID " ++ toString i ++
          " ya estaba eliminado")), s)

end WorkoutDaysService

/-- `UserRole` enumeration (`user.interface.ts`, later iteration). -/
inductive UserRole where
  | admin
  | trainer
  | nutritionist
  | user
  | guest
deriving Repr, DecidableEq

/-- `UserStatus` enumeration (`user.interface.ts`, later iteration). -/
inductive UserStatus where
  | active
  | inactive
  | pending
  | suspended
  | banned
deriving Repr, DecidableEq

/-- `UserStats` interface (`user.interface.ts`, later iteration). -/
structure UserStats where
  totalWorkouts : Nat
  currentStreak : Nat
  longestStreak : Nat
  totalCaloriesBurned : Nat
  averageWorkoutDuration : Nat
  favoriteWorkoutType : Option String
  monthlyGoal : Nat
  monthlyProgress : Nat
deriving Repr, DecidableEq

/-- `UserEntity` of the later iteration (role/status columns, `unique: true`
on email at the column level): `UserEntityV3` names that richer row shape. -/
structure UserEntityV3 where
  id : Nat
  name : String
  email : String
  role : UserRole
  avatar : Option String
  status : UserStatus
  bio : Option String
  phone : Option String
  location : Option String
  specialties : Option (List String)
  stats : Option UserStats
  createdAt : Nat
  updatedAt : Nat
deriving Repr, DecidableEq

/-- `UserEntity.getJoinedDate`: `createdAt.toISOString()`. -/
def UserEntityV3.getJoinedDate (u : UserEntityV3) : String :=
  toISOString u.createdAt

/-- The users table of the later iteration. -/
structure StoreV3 where
  users : List UserEntityV3
  nextId : Nat
deriving Repr, DecidableEq

/-- `CreateUserDto` of the later iteration: required name and email; optional
role, avatar, bio, phone, location, specialties. -/
structure CreateUserDtoV3 where
  name : String
  email : String
  role : Option UserRole
  avatar : Option String
  bio : Option String
  phone : Option String
  location : Option String
  specialties : Option (List String)
deriving Repr, DecidableEq

/-- `UpdateUserDto` of the later iteration: every field optional. -/
structure UpdateUserDtoV3 where
  name : Option String
  email : Option String
  role : Option UserRole
  avatar : Option String
  status : Option UserStatus
  bio : Option String
  phone : Option String
  location : Option String
  specialties : Option (List String)
deriving Repr, DecidableEq

/-- `UserResponseDto` of the later iteration, including the derived
`joinedDate` string. -/
structure UserResponseDto where
  id : Nat
  name : String
  email : String
  role : UserRole
  avatar : Option String
  status : UserStatus
  joinedDate : String
  bio : Option String
  phone : Option String
  location : Option String
  specialties : Option (List String)
  stats : Option UserStats
deriving Repr, DecidableEq

namespace UsersServiceV3

/-- `UsersService.mapToResponseDto` of the later iteration. -/
def mapToResponseDto (u : UserEntityV3) : UserResponseDto :=
  { id := u.id, name := u.name, email := u.email, role := u.role,
    avatar := u.avatar, status := u.status,
    joinedDate := u.getJoinedDate, bio := u.bio, phone := u.phone,
    location := u.location, specialties := u.specialties, stats := u.stats }

/-- `UsersService.create` of the later iteration: the duplicate-email lookup
uses the RAW request email; the inserted row stores the trimmed, lowercased
email, `status: UserStatus.ACTIVE`, and the entity's `role ?? USER` column
default when no role is supplied. -/
def create (s : StoreV3) (dto : CreateUserDtoV3) (now : Nat) :
    Except Err UserResponseDto × StoreV3 :=
  match s.users.find? (fun u => u.email == dto.email) with
  | some _ =>
    (.error (.conflict ("Ya existe un usuario con el email " ++ dto.email)), s)
  | none =>
    let u : UserEntityV3 :=
      { id := s.nextId
        name := jsTrim dto.name
        email := jsTrim (jsToLower dto.email)
        role := dto.role.getD UserRole.user
        avatar := dto.avatar
        status := UserStatus.active
        bio := dto.bio
        phone := dto.phone
        location := dto.location
        specialties := dto.specialties
        stats := none
        createdAt := now
        updatedAt := now }
    (.ok (mapToResponseDto u),
      { users := s.users ++ [u], nextId := s.nextId + 1 })

/-- The nine conditional field assignments of the later iteration's
`UsersService.update`, as one record update.  `name`/`email` are guarded by
truthiness, the rest by `!== undefined`. -/
def applyUserUpdateV3 (u : UserEntityV3) (d : UpdateUserDtoV3) : UserEntityV3 :=
  { u with
    name := match d.name with
      | some n => if n == "" then u.name else jsTrim n
      | none => u.name
    email := match d.email with
      | some e => if e == "" then u.email else jsTrim (jsToLower e)
      | none => u.email
    role := d.role.getD u.role
    avatar := match d.avatar with | some a => some a | none => u.avatar
    status := d.status.getD u.status
    bio := match d.bio with | some b => some b | none => u.bio
    phone := match d.phone with | some p => some p | none => u.phone
    location := match d.location with | some l => some l | none => u.location
    specialties := match d.specialties with | some l => some l | none => u.specialties }

/-- `UsersService.update` of the later iteration. -/
def update (s : StoreV3) (id : Option Nat) (d : UpdateUserDtoV3) (now : Nat) :
    Except Err UserResponseDto × StoreV3 :=
  match id with
  | none => (.error (.badRequest "ID debe ser un número válido"), s)
  | some i =>
    match s.users.find? (fun u => u.id == i) with
    | none =>
      (.error (.notFound ("Usuario con ID " ++ toString i ++ " no encontrado")), s)
    | some u =>
      let emailConflict : Bool :=
        match d.email with
        | some e =>
          if e == "" then false
          else
            match s.users.find? (fun v => v.email == e) with
            | some v => v.id != i
            | none => false
        | none => false
      if emailConflict then
        (.error (.conflict ("Ya existe otro usuario con el email " ++
          (d.email.getD ""))), s)
      else
        let u2 : UserEntityV3 := { applyUserUpdateV3 u d with updatedAt := now }
        (.ok (mapToResponseDto u2),
          { s with users := Repo.save UserEntityV3.id s.users u2 })

end UsersServiceV3

/-- At most one active WorkoutDay per `(userId, dayOfWeek)` pair: any two
active rows agreeing on the pair are the same row. -/
def ActivePairUnique (ws : List WorkoutDayEntity) : Prop :=
  ∀ w1 ∈ ws, ∀ w2 ∈ ws,
    w1.userId = w2.userId → w1.dayOfWeek = w2.dayOfWeek →
    w1.isActive = true → w2.isActive = true → w1.id = w2.id

/-- Well-formedness of the workout table maintained by the persistence layer:
primary keys are pairwise distinct and below the auto-increment counter. -/
def WorkoutIdsOk (s : Store) : Prop :=
  (s.workouts.map WorkoutDayEntity.id).Nodup ∧
  ∀ w ∈ s.workouts, w.id < s.nextWorkoutId

/-- A `dayOfWeek` value admitted by the DTO validation layer
(`@Min(1) @Max(7)`), when the field is supplied at all. -/
def ValidDayField (d : Option Nat) : Prop :=
  ∀ dow, d = some dow → 1 ≤ dow ∧ dow ≤ 7

/-- Stores reachable through `WorkoutDaysService` create, update and remove
calls whose DTOs pass the declarative validation layer, where the update calls
moreover never supply `isActive: true` (reactivation is the one update shape
excluded here; the C2 counterexample shows why it must be). -/
inductive WorkoutReach : Store → Store → Prop
  | refl (s : Store) : WorkoutReach s s
  | create (s t : Store) (dto : CreateWorkoutDayDto) (now : Nat) :
      WorkoutReach s t →
      WorkoutReach s (WorkoutDaysService.create t dto now).2
  | update (s t : Store) (id : Option Nat) (d : UpdateWorkoutDayDto) (now : Nat) :
      ValidDayField d.dayOfWeek → d.isActive ≠ some true →
      WorkoutReach s t →
      WorkoutReach s (WorkoutDaysService.update t id d now).2
  | remove (s t : Store) (id : Option Nat) (now : Nat) :
      WorkoutReach s t →
      WorkoutReach s (WorkoutDaysService.remove t id now).2

/-! Concrete fixtures used by witnesses and counterexamples. -/

/-- An `UpdateUserDto` with no field supplied. -/
def emptyUserUpdate : UpdateUserDto :=
  { name := none, email := none, age := none, isActive := none }

/-- An `UpdateUserDto` supplying only the `name` field. -/
def onlyNameUpdate (n : String) : UpdateUserDto :=
  { emptyUserUpdate with name := some n }

/-- An `UpdateWorkoutDayDto` with no field supplied. -/
def emptyWorkoutUpdate : UpdateWorkoutDayDto :=
  { name := none, description := none, dayOfWeek := none,
    durationMinutes := none, intensityLevel := none, workoutType := none,
    isActive := none }

/-- A `SearchUserDto` with every filter absent. -/
def emptyUserSearch : SearchUserDto :=
  { name := none, email := none, age := none, isActive := none }

/-- Stored user whose email is already in persisted (normalized) form. -/
def anaUser : UserEntity :=
  { id := 1, name := "Ana García", email := "ana@email.com", age := 25,
    isActive := true, createdAt := 0, updatedAt := 0 }

/-- Store holding just `anaUser`. -/
def anaStore : Store :=
  { users := [anaUser], workouts := [], nextUserId := 2, nextWorkoutId := 1 }

/-- Create request whose email differs from the stored one only by case. -/
def anaDupReq : CreateUserDto :=
  { name := "Ana García", email := "Ana@email.com", age := 25 }

/-- A soft-deleted (inactive) user with id 1. -/
def inactiveOwner : UserEntity :=
  { id := 1, name := "Carlos López", email := "carlos@email.com", age := 30,
    isActive := false, createdAt := 0, updatedAt := 0 }

/-- An active Monday workout owned by user 1. -/
def mondayWorkout : WorkoutDayEntity :=
  { id := 1, name := "Lunes - Pecho", description := none, dayOfWeek := 1,
    durationMinutes := 90, intensityLevel := 4, workoutType := "Fuerza",
    isActive := true, userId := 1, createdAt := 0, updatedAt := 0 }

/-- Store in which workout 1 is owned by an inactive user. -/
def orphanStore : Store :=
  { users := [inactiveOwner], workouts := [mondayWorkout], nextUserId := 2,
    nextWorkoutId := 2 }

/-- An update request reassigning the day of week to Tuesday. -/
def tuesdayChange : UpdateWorkoutDayDto :=
  { emptyWorkoutUpdate with dayOfWeek := some 2 }

/-- Store holding only an inactive user. -/
def inactiveOnlyStore : Store :=
  { users := [inactiveOwner], workouts := [], nextUserId := 2,
    nextWorkoutId := 1 }

/-- An active user with id 1. -/
def activeOwner : UserEntity :=
  { id := 1, name := "Ana García", email := "ana@email.com", age := 25,
    isActive := true, createdAt := 0, updatedAt := 0 }

/-- Store with one active user and no workouts. -/
def c2Store : Store :=
  { users := [activeOwner], workouts := [], nextUserId := 2, nextWorkoutId := 1 }

/-- A valid create request for a Monday workout of user 1. -/
def mondayCreate : CreateWorkoutDayDto :=
  { name := "Lunes - Pecho", description := none, dayOfWeek := 1,
    durationMinutes := 90, intensityLevel := none, workoutType := none,
    userId := 1 }

/-- An update request supplying only `isActive: true` (reactivation). -/
def reactivateUpdate : UpdateWorkoutDayDto :=
  { emptyWorkoutUpdate with isActive := some true }

/-- Store with an active owner and their active Monday workout. -/
def removalStore : Store :=
  { users := [activeOwner], workouts := [mondayWorkout], nextUserId := 2,
    nextWorkoutId := 2 }

/-- An empty later-iteration users table. -/
def v3EmptyStore : StoreV3 := { users := [], nextId := 1 }

/-- A later-iteration create request with padding and mixed case. -/
def pedroReq : CreateUserDtoV3 :=
  { name := " Pedro Silva ", email := " Pedro@Email.com ", role := none,
    avatar := none, bio := none, phone := none, location := none,
    specialties := none }

/-- A later-iteration stored user. -/
def pedroV3 : UserEntityV3 :=
  { id := 1, name := "Pedro Silva", email := "pedro@email.com",
    role := UserRole.trainer, avatar := none, status := UserStatus.active,
    bio := some "bio", phone := none, location := some "Bogotá",
    specialties := none, stats := none, createdAt := 100, updatedAt := 100 }

/-- Later-iteration store holding just `pedroV3`. -/
def pedroV3Store : StoreV3 := { users := [pedroV3], nextId := 2 }

/-- A later-iteration update supplying only `name`. -/
def onlyNameUpdateV3 (n : String) : UpdateUserDtoV3 :=
  { name := some n, email := none, role := none, avatar := none,
    status := none, bio := none, phone := none, location := none,
    specialties := none }

/-- Step 1 of the C2 run: create a Monday workout for user 1. -/
def c2Run1 : Except Err WorkoutDay × Store :=
  WorkoutDaysService.create c2Store mondayCreate 1

/-- Step 2 of the C2 run: soft-delete that workout. -/
def c2Run2 : Except Err WorkoutDay × Store :=
  WorkoutDaysService.remove c2Run1.2 (some 1) 2

/-- Step 3 of the C2 run: create a second Monday workout for user 1 (allowed,
the first is inactive). -/
def c2Run3 : Except Err WorkoutDay × Store :=
  WorkoutDaysService.create c2Run2.2 mondayCreate 3

/-- Step 4 of the C2 run: re-activate the soft-deleted workout through
update. -/
def c2Run4 : Except Err WorkoutDay × Store :=
  WorkoutDaysService.update c2Run3.2 (some 1) reactivateUpdate 4

/-! ## Theorems -/

/-- Looking a row up by id after `Repo.save` of an entity carrying that id
yields the saved entity. -/
theorem find?_save {α : Type} (idOf : α → Nat) (l : List α) (i : Nat)
    (u u' : α) (h : l.find? (fun v => idOf v == i) = some u)
    (hid : idOf u' = idOf u) :
    (Repo.save idOf l u').find? (fun v => idOf v == i) = some u' := by
  have hui : (idOf u == i) = true := by
    have h2 := List.find?_some h
    exact h2
  induction l with
  | nil => simp at h
  | cons a t ih =>
    cases hb : (idOf a == i) with
    | true =>
      have hau : a = u := by
        simp only [List.find?, hb] at h
        exact Option.some.inj h
      have h1 : (idOf a == idOf u') = true := by
        rw [beq_iff_eq, hau, hid]
      have h2 : (idOf u' == i) = true := by
        rw [beq_iff_eq] at hui ⊢
        rw [hid, hui]
      simp only [Repo.save, List.map_cons, if_pos h1, List.find?, h2]
    | false =>
      have h3 : t.find? (fun v => idOf v == i) = some u := by
        simp only [List.find?, hb] at h
        exact h
      have h4 : ¬ (idOf a == idOf u') = true := by
        rw [beq_iff_eq] at hui ⊢
        rw [hid, hui]
        rw [beq_eq_false_iff_ne] at hb
        exact hb
      simp only [Repo.save, List.map_cons, if_neg h4, List.find?, hb]
      exact ih h3

/-- C7: the weekday-name helper is a total pure function: every integer in
1..7 maps to the corresponding Spanish weekday name (1 = Lunes, ...,
7 = Domingo) and every other integer — negative, zero, or above 7 — yields the
explicit sentinel `Día inválido`; being a Lean function it cannot throw. -/
theorem c7_getDayName_total :
    (∀ d : Int, (d < 1 ∨ 7 < d) → getDayName d = "Día inválido") ∧
    getDayName 1 = "Lunes" ∧ getDayName 2 = "Martes" ∧
    getDayName 3 = "Miércoles" ∧ getDayName 4 = "Jueves" ∧
    getDayName 5 = "Viernes" ∧ getDayName 6 = "Sábado" ∧
    getDayName 7 = "Domingo" := by
  refine ⟨?_, by decide, by decide, by decide, by decide, by decide,
    by decide, by decide⟩
  intro d hd
  have hlen : dayNames.length = 8 := by decide
  unfold getDayName jsIndex
  by_cases h0 : 0 ≤ d ∧ d.toNat < dayNames.length
  · rcases hd with h | h
    · have hz : d = 0 := by omega
      subst hz; decide
    · exfalso; rw [hlen] at h0; omega
  · rw [dif_neg h0]

/-- C7 witness: the total-function theorem applied at the out-of-range
input 99. -/
theorem c7_getDayName_total_witness : getDayName 99 = "Día inválido" :=
  c7_getDayName_total.1 99 (Or.inr (by decide))

/-- C1: evaluating `UsersService.create` at a request whose email differs from
a stored email only by case: the raw-email duplicate lookup misses, no
Conflict is raised, and a second row with the identical normalized email is
persisted — the duplicate-email comparison is performed on the raw input, not
the normalized email. -/
theorem c1_create_misses_caseVariant_email :
    jsTrim (jsToLower anaDupReq.email) = anaUser.email ∧
    anaUser ∈ anaStore.users ∧
    isConflict (UsersService.create anaStore anaDupReq 5).1 = false ∧
    (UsersService.create anaStore anaDupReq 5).2.users.map UserEntity.email =
      ["ana@email.com", "ana@email.com"] :=
  ⟨by decide, by decide, by decide, by decide⟩

/-- C3 counterexample: workout 1's owner (user 1) is inactive, yet an update
reassigning the day of week from Monday to Tuesday succeeds instead of failing
with NotFound — update never re-validates the owning user. -/
theorem c3_counterexample :
    WorkoutDaysService.findActiveUser orphanStore mondayWorkout.userId = none ∧
    tuesdayChange.dayOfWeek = some 2 ∧ mondayWorkout.dayOfWeek = 1 ∧
    (WorkoutDaysService.update orphanStore (some 1) tuesdayChange 9).1.isOk
      = true :=
  ⟨by decide, by decide, by decide, by decide⟩

/-- C3 (amended): owner existence/activity is enforced at creation only —
every create whose `userId` has no active user fails with NotFound and leaves
the store unchanged; the update path performs no such check even when the day
of week is reassigned (see the counterexample). -/
theorem c3_create_checks_owner :
    ∀ (s : Store) (dto : CreateWorkoutDayDto) (now : Nat),
      WorkoutDaysService.findActiveUser s dto.userId = none →
      WorkoutDaysService.create s dto now =
        (.error (.notFound ("Usuario con ID " ++ toString dto.userId ++
          " no encontrado o no está activo")), s) := by
  intro s dto now h
  unfold WorkoutDaysService.create
  rw [h]

/-- C3 witness: the amended theorem applied to a store whose only user is
inactive. -/
theorem c3_create_checks_owner_witness :
    WorkoutDaysService.findActiveUser inactiveOnlyStore mondayCreate.userId
        = none ∧
    WorkoutDaysService.create inactiveOnlyStore mondayCreate 7 =
      (.error (.notFound "Usuario con ID 1 no encontrado o no está activo"),
        inactiveOnlyStore) :=
  ⟨by decide, c3_create_checks_owner inactiveOnlyStore mondayCreate 7 (by decide)⟩

/-- C4 counterexample: on a store holding one inactive user, findAll returns
the empty list while search with every filter absent returns that user — the
two record sets differ, not merely their order. -/
theorem c4_counterexample :
    UsersService.findAll inactiveOnlyStore = [] ∧
    UsersService.search inactiveOnlyStore emptyUserSearch =
      [UsersService.mapEntityToInterface inactiveOwner] :=
  ⟨by decide, by decide⟩

/-- C4 (amended): search with every filter absent returns ALL stored rows
(inactive ones included) while findAll returns only the active rows; on stores
whose rows are all active the two agree up to ordering. -/
theorem c4_search_noFilters_perm_findAll :
    ∀ s : Store, (∀ u ∈ s.users, u.isActive = true) →
      (UsersService.search s emptyUserSearch).Perm (UsersService.findAll s) := by
  intro s h
  unfold UsersService.search UsersService.findAll
  have h1 : s.users.filter (UsersService.searchPred emptyUserSearch)
      = s.users := by
    apply List.filter_eq_self.mpr
    intro u _
    rfl
  have h2 : s.users.filter (fun u => u.isActive) = s.users :=
    List.filter_eq_self.mpr (fun u hu => by rw [h u hu])
  rw [h1, h2]
  exact ((List.perm_insertionSort _ _).trans
    (List.perm_insertionSort _ _).symm).map _

/-- C4 witness: the amended theorem applied to an all-active store. -/
theorem c4_search_noFilters_witness :
    (∀ u ∈ anaStore.users, u.isActive = true) ∧
    (UsersService.search anaStore emptyUserSearch).Perm
      (UsersService.findAll anaStore) :=
  ⟨by decide, c4_search_noFilters_perm_findAll anaStore (by decide)⟩

/-- C5: an update supplying only `name` (in either service iteration)
succeeds and only replaces that one row; the resulting row keeps every field
other than `name` and the update timestamp — email, age/role, status and all
remaining attributes, including `createdAt` — and has `updatedAt` refreshed to
the call time. -/
theorem c5_update_onlyName_frame :
    (∀ (s : Store) (i : Nat) (u : UserEntity) (n : String) (now : Nat),
      s.users.find? (fun v => v.id == i) = some u →
      ∃ u' : UserEntity,
        UsersService.update s (some i) (onlyNameUpdate n) now =
          (.ok (UsersService.mapEntityToInterface u'),
            { s with users := Repo.save UserEntity.id s.users u' }) ∧
        u'.id = u.id ∧ u'.email = u.email ∧ u'.age = u.age ∧
        u'.isActive = u.isActive ∧ u'.createdAt = u.createdAt ∧
        u'.updatedAt = now) ∧
    (∀ (s : StoreV3) (i : Nat) (u : UserEntityV3) (n : String) (now : Nat),
      s.users.find? (fun v => v.id == i) = some u →
      ∃ u' : UserEntityV3,
        UsersServiceV3.update s (some i) (onlyNameUpdateV3 n) now =
          (.ok (UsersServiceV3.mapToResponseDto u'),
            { s with users := Repo.save UserEntityV3.id s.users u' }) ∧
        u'.id = u.id ∧ u'.email = u.email ∧ u'.role = u.role ∧
        u'.avatar = u.avatar ∧ u'.status = u.status ∧ u'.bio = u.bio ∧
        u'.phone = u.phone ∧ u'.location = u.location ∧
        u'.specialties = u.specialties ∧ u'.stats = u.stats ∧
        u'.createdAt = u.createdAt ∧ u'.updatedAt = now) := by
  constructor
  · intro s i u n now h
    simp only [UsersService.update, h]
    exact ⟨_, rfl, rfl, rfl, rfl, rfl, rfl, rfl⟩
  · intro s i u n now h
    simp only [UsersServiceV3.update, h]
    exact ⟨_, rfl, rfl, rfl, rfl, rfl, rfl, rfl, rfl, rfl, rfl, rfl, rfl, rfl⟩

/-- C5 witness: both conjuncts applied at concrete stores. -/
theorem c5_update_onlyName_frame_witness :
    (∃ u' : UserEntity,
      UsersService.update anaStore (some 1) (onlyNameUpdate "Ana María") 42 =
        (.ok (UsersService.mapEntityToInterface u'),
          { anaStore with users := Repo.save UserEntity.id anaStore.users u' }) ∧
      u'.id = anaUser.id ∧ u'.email = anaUser.email ∧ u'.age = anaUser.age ∧
      u'.isActive = anaUser.isActive ∧ u'.createdAt = anaUser.createdAt ∧
      u'.updatedAt = 42) ∧
    (∃ u' : UserEntityV3,
      UsersServiceV3.update pedroV3Store (some 1) (onlyNameUpdateV3 "Pedro") 42 =
        (.ok (UsersServiceV3.mapToResponseDto u'),
          { pedroV3Store with
              users := Repo.save UserEntityV3.id pedroV3Store.users u' }) ∧
      u'.id = pedroV3.id ∧ u'.email = pedroV3.email ∧ u'.role = pedroV3.role ∧
      u'.avatar = pedroV3.avatar ∧ u'.status = pedroV3.status ∧
      u'.bio = pedroV3.bio ∧ u'.phone = pedroV3.phone ∧
      u'.location = pedroV3.location ∧ u'.specialties = pedroV3.specialties ∧
      u'.stats = pedroV3.stats ∧ u'.createdAt = pedroV3.createdAt ∧
      u'.updatedAt = 42) :=
  ⟨c5_update_onlyName_frame.1 anaStore 1 anaUser "Ana María" 42 (by decide),
   c5_update_onlyName_frame.2 pedroV3Store 1 pedroV3 "Pedro" 42 (by decide)⟩

/-- C6: every create that passes the duplicate-email lookup persists exactly
one new row whose status is active, whose name is the trimmed input name,
whose email is the lowercased-and-trimmed input email, and returns the
response for that row, whose `joinedDate` is the creation timestamp rendered
as an ISO-8601 string. -/
theorem c6_create_success_shape :
    ∀ (s : StoreV3) (dto : CreateUserDtoV3) (now : Nat),
      s.users.find? (fun u => u.email == dto.email) = none →
      ∃ e : UserEntityV3,
        UsersServiceV3.create s dto now =
          (.ok (UsersServiceV3.mapToResponseDto e),
            { users := s.users ++ [e], nextId := s.nextId + 1 }) ∧
        e.status = UserStatus.active ∧
        e.name = jsTrim dto.name ∧
        e.email = jsTrim (jsToLower dto.email) ∧
        e.createdAt = now ∧
        (UsersServiceV3.mapToResponseDto e).joinedDate = toISOString now := by
  intro s dto now h
  unfold UsersServiceV3.create
  rw [h]
  exact ⟨_, rfl, rfl, rfl, rfl, rfl, rfl⟩

/-- C6 witness: the theorem applied to an empty store and a padded,
mixed-case request. -/
theorem c6_create_success_shape_witness :
    v3EmptyStore.users.find? (fun u => u.email == pedroReq.email) = none ∧
    ∃ e : UserEntityV3,
      UsersServiceV3.create v3EmptyStore pedroReq 1705314600000 =
        (.ok (UsersServiceV3.mapToResponseDto e),
          { users := v3EmptyStore.users ++ [e],
            nextId := v3EmptyStore.nextId + 1 }) ∧
      e.status = UserStatus.active ∧
      e.name = jsTrim pedroReq.name ∧
      e.email = jsTrim (jsToLower pedroReq.email) ∧
      e.createdAt = 1705314600000 ∧
      (UsersServiceV3.mapToResponseDto e).joinedDate =
        toISOString 1705314600000 :=
  ⟨by decide,
   c6_create_success_shape v3EmptyStore pedroReq 1705314600000 (by decide)⟩

/-- C10: an update supplying `name` as the empty string succeeds (it is not
rejected) but leaves the stored name unchanged — the truthiness guard
`if (dto.name)` treats the empty string like an absent field — in both the
users and the workout-days service. -/
theorem c10_update_emptyName_ignored :
    (∀ (s : Store) (i : Nat) (u : UserEntity) (now : Nat),
      s.users.find? (fun v => v.id == i) = some u →
      ∃ u' : UserEntity,
        (UsersService.update s (some i) (onlyNameUpdate "") now).1 =
          .ok (UsersService.mapEntityToInterface u') ∧
        (UsersService.update s (some i) (onlyNameUpdate "") now).2.users.find?
          (fun v => v.id == i) = some u' ∧
        u'.name = u.name) ∧
    (∀ (s : Store) (i : Nat) (w : WorkoutDayEntity) (now : Nat),
      s.workouts.find? (fun v => v.id == i) = some w →
      ∃ w' : WorkoutDayEntity,
        (WorkoutDaysService.update s (some i)
            { emptyWorkoutUpdate with name := some "" } now).1 =
          .ok (WorkoutDaysService.mapEntityToInterface w') ∧
        (WorkoutDaysService.update s (some i)
            { emptyWorkoutUpdate with name := some "" } now).2.workouts.find?
          (fun v => v.id == i) = some w' ∧
        w'.name = w.name) := by
  constructor
  · intro s i u now h
    refine ⟨{ UsersService.applyUserUpdate u (onlyNameUpdate "") with
        updatedAt := now }, ?_, ?_, rfl⟩
    · simp only [UsersService.update, h]
      rfl
    · simp only [UsersService.update, h]
      exact find?_save UserEntity.id s.users i u _ h rfl
  · intro s i w now h
    refine ⟨{ WorkoutDaysService.applyWorkoutUpdate w
        { emptyWorkoutUpdate with name := some "" } with
        updatedAt := now }, ?_, ?_, rfl⟩
    · simp only [WorkoutDaysService.update, h]
      rfl
    · simp only [WorkoutDaysService.update, h]
      exact find?_save WorkoutDayEntity.id s.workouts i w _ h rfl

/-- C10 witness: both conjuncts applied at concrete stores. -/
theorem c10_update_emptyName_ignored_witness :
    (∃ u' : UserEntity,
      (UsersService.update anaStore (some 1) (onlyNameUpdate "") 8).1 =
        .ok (UsersService.mapEntityToInterface u') ∧
      (UsersService.update anaStore (some 1) (onlyNameUpdate "") 8).2.users.find?
        (fun v => v.id == 1) = some u' ∧
      u'.name = anaUser.name) ∧
    (∃ w' : WorkoutDayEntity,
      (WorkoutDaysService.update removalStore (some 1)
          { emptyWorkoutUpdate with name := some "" } 8).1 =
        .ok (WorkoutDaysService.mapEntityToInterface w') ∧
      (WorkoutDaysService.update removalStore (some 1)
          { emptyWorkoutUpdate with name := some "" } 8).2.workouts.find?
        (fun v => v.id == 1) = some w' ∧
      w'.name = mondayWorkout.name) :=
  ⟨c10_update_emptyName_ignored.1 anaStore 1 anaUser 8 (by decide),
   c10_update_emptyName_ignored.2 removalStore 1 mondayWorkout 8 (by decide)⟩

/-- C8: removing an id whose stored row is active succeeds (marking it
inactive), and an immediately repeated remove on the same id fails with
Conflict and leaves the store as the first remove left it — for both the User
and WorkoutDay resources. -/
theorem c8_double_remove_conflict :
    (∀ (s : Store) (i : Nat) (u : UserEntity) (t1 t2 : Nat),
      s.users.find? (fun v => v.id == i) = some u → u.isActive = true →
      (∃ v, (UsersService.remove s (some i) t1).1 = .ok v) ∧
      UsersService.remove (UsersService.remove s (some i) t1).2 (some i) t2 =
        (.error (.conflict ("Usuario con ID " ++ toString i ++
            " ya estaba eliminado")),
          (UsersService.remove s (some i) t1).2)) ∧
    (∀ (s : Store) (i : Nat) (w : WorkoutDayEntity) (t1 t2 : Nat),
      s.workouts.find? (fun v => v.id == i) = some w → w.isActive = true →
      (∃ v, (WorkoutDaysService.remove s (some i) t1).1 = .ok v) ∧
      WorkoutDaysService.remove (WorkoutDaysService.remove s (some i) t1).2
          (some i) t2 =
        (.error (.conflict ("Día de entrenamiento con ID " ++ toString i ++
            " ya estaba eliminado")),
          (WorkoutDaysService.remove s (some i) t1).2)) := by
  constructor
  · intro s i u t1 t2 h hact
    have hr : UsersService.remove s (some i) t1 =
        (.ok (UsersService.mapEntityToInterface (u.deactivate t1)),
          { s with users := Repo.save UserEntity.id s.users (u.deactivate t1) }) := by
      simp only [UsersService.remove, h, hact, if_true]
      rfl
    have hf : (Repo.save UserEntity.id s.users (u.deactivate t1)).find?
        (fun v => v.id == i) = some (u.deactivate t1) :=
      find?_save UserEntity.id s.users i u _ h rfl
    refine ⟨⟨_, by rw [hr]⟩, ?_⟩
    rw [hr]
    simp only [UsersService.remove, hf]
    rfl
  · intro s i w t1 t2 h hact
    have hr : WorkoutDaysService.remove s (some i) t1 =
        (.ok (WorkoutDaysService.mapEntityToInterface (w.deactivate t1)),
          { s with workouts := Repo.save WorkoutDayEntity.id s.workouts (w.deactivate t1) }) := by
      simp only [WorkoutDaysService.remove, h, hact, if_true]
      rfl
    have hf : (Repo.save WorkoutDayEntity.id s.workouts (w.deactivate t1)).find?
        (fun v => v.id == i) = some (w.deactivate t1) :=
      find?_save WorkoutDayEntity.id s.workouts i w _ h rfl
    refine ⟨⟨_, by rw [hr]⟩, ?_⟩
    rw [hr]
    simp only [WorkoutDaysService.remove, hf]
    rfl

/-- C8 witness: both conjuncts applied at concrete stores with active rows. -/
theorem c8_double_remove_conflict_witness :
    ((∃ v, (UsersService.remove anaStore (some 1) 3).1 = .ok v) ∧
      UsersService.remove (UsersService.remove anaStore (some 1) 3).2
          (some 1) 4 =
        (.error (.conflict "Usuario con ID 1 ya estaba eliminado"),
          (UsersService.remove anaStore (some 1) 3).2)) ∧
    ((∃ v, (WorkoutDaysService.remove removalStore (some 1) 3).1 = .ok v) ∧
      WorkoutDaysService.remove
          (WorkoutDaysService.remove removalStore (some 1) 3).2 (some 1) 4 =
        (.error (.conflict "Día de entrenamiento con ID 1 ya estaba eliminado"),
          (WorkoutDaysService.remove removalStore (some 1) 3).2)) :=
  ⟨c8_double_remove_conflict.1 anaStore 1 anaUser 3 4 (by decide) (by decide),
   c8_double_remove_conflict.2 removalStore 1 mondayWorkout 3 4 (by decide)
     (by decide)⟩

/-- From "the call either left the store alone or returned ok", an error
outcome forces the unchanged store. -/
theorem error_leaves {β σ : Type} (r : Except Err β × σ) (s : σ)
    (hc : r.2 = s ∨ r.1.isOk = true) (e : Err) (h : r.1 = .error e) :
    r.2 = s := by
  rcases hc with hc | hc
  · exact hc
  · rw [h] at hc
    exact absurd hc (by simp [Except.isOk, Except.toBool])

/-- `UsersService.create` either leaves the store unchanged or succeeds. -/
theorem usersCreate_cases (s : Store) (dto : CreateUserDto) (now : Nat) :
    (UsersService.create s dto now).2 = s ∨
    (UsersService.create s dto now).1.isOk = true := by
  rcases hf : s.users.find? (fun u => u.email == dto.email) with _ | u
  · right; simp [UsersService.create, hf, Except.isOk, Except.toBool]
  · left; simp [UsersService.create, hf]

/-- `UsersService.update` either leaves the store unchanged or succeeds. -/
theorem usersUpdate_cases (s : Store) (id : Option Nat) (d : UpdateUserDto)
    (now : Nat) :
    (UsersService.update s id d now).2 = s ∨
    (UsersService.update s id d now).1.isOk = true := by
  cases id with
  | none => left; rfl
  | some i =>
    rcases hf : s.users.find? (fun u => u.id == i) with _ | u
    · left; simp [UsersService.update, hf]
    · simp only [UsersService.update, hf]
      split
      · left; rfl
      · right; simp [Except.isOk, Except.toBool]

/-- `UsersService.remove` either leaves the store unchanged or succeeds. -/
theorem usersRemove_cases (s : Store) (id : Option Nat) (now : Nat) :
    (UsersService.remove s id now).2 = s ∨
    (UsersService.remove s id now).1.isOk = true := by
  cases id with
  | none => left; rfl
  | some i =>
    rcases hf : s.users.find? (fun u => u.id == i) with _ | u
    · left; simp [UsersService.remove, hf]
    · simp only [UsersService.remove, hf]
      split
      · right; simp [Except.isOk, Except.toBool]
      · left; rfl

/-- `WorkoutDaysService.create` either leaves the store unchanged or
succeeds. -/
theorem workoutsCreate_cases (s : Store) (dto : CreateWorkoutDayDto)
    (now : Nat) :
    (WorkoutDaysService.create s dto now).2 = s ∨
    (WorkoutDaysService.create s dto now).1.isOk = true := by
  rcases hu : WorkoutDaysService.findActiveUser s dto.userId with _ | x
  · left; simp [WorkoutDaysService.create, hu]
  · rcases hw : s.workouts.find? (fun w =>
        w.userId == dto.userId && w.dayOfWeek == dto.dayOfWeek && w.isActive)
      with _ | y
    · right; simp [WorkoutDaysService.create, hu, hw, Except.isOk, Except.toBool]
    · left; simp [WorkoutDaysService.create, hu, hw]

/-- `WorkoutDaysService.update` either leaves the store unchanged or
succeeds. -/
theorem workoutsUpdate_cases (s : Store) (id : Option Nat)
    (d : UpdateWorkoutDayDto) (now : Nat) :
    (WorkoutDaysService.update s id d now).2 = s ∨
    (WorkoutDaysService.update s id d now).1.isOk = true := by
  cases id with
  | none => left; rfl
  | some i =>
    rcases hf : s.workouts.find? (fun w => w.id == i) with _ | w
    · left; simp [WorkoutDaysService.update, hf]
    · simp only [WorkoutDaysService.update, hf]
      cases hd : d.dayOfWeek with
      | none => right; simp [Except.isOk, Except.toBool]
      | some dow =>
        by_cases hcond : (dow != 0 && dow != w.dayOfWeek) = true
        · rcases hv : s.workouts.find? (fun v =>
              v.userId == w.userId && v.dayOfWeek == dow && v.isActive)
            with _ | v
          · right; simp [hv, hcond, Except.isOk, Except.toBool]
          · by_cases hvi : (v.id != i) = true
            · left; simp [hv, hcond, hvi]
            · right; simp [hv, hcond, hvi, Except.isOk, Except.toBool]
        · right; simp [hcond, Except.isOk, Except.toBool]

/-- `WorkoutDaysService.remove` either leaves the store unchanged or
succeeds. -/
theorem workoutsRemove_cases (s : Store) (id : Option Nat) (now : Nat) :
    (WorkoutDaysService.remove s id now).2 = s ∨
    (WorkoutDaysService.remove s id now).1.isOk = true := by
  cases id with
  | none => left; rfl
  | some i =>
    rcases hf : s.workouts.find? (fun w => w.id == i) with _ | w
    · left; simp [WorkoutDaysService.remove, hf]
    · simp only [WorkoutDaysService.remove, hf]
      split
      · right; simp [Except.isOk, Except.toBool]
      · left; rfl

/-- Membership in a saved table: a row is the saved entity or an untouched
original with a different id. -/
theorem mem_save {α : Type} (idOf : α → Nat) (l : List α) (u v : α)
    (h : v ∈ Repo.save idOf l u) : v = u ∨ (v ∈ l ∧ idOf v ≠ idOf u) := by
  rcases List.mem_map.mp h with ⟨x, hx, hfx⟩
  by_cases hc : (idOf x == idOf u) = true
  · left
    rw [← hfx, if_pos hc]
  · right
    have hvx : v = x := by rw [← hfx, if_neg hc]
    subst hvx
    exact ⟨hx, fun hcon => hc (beq_iff_eq.mpr hcon)⟩

/-- `Repo.save` never changes the list of primary keys. -/
theorem save_map_ids {α : Type} (idOf : α → Nat) (l : List α) (u : α) :
    (Repo.save idOf l u).map idOf = l.map idOf := by
  simp only [Repo.save, List.map_map]
  apply List.map_congr_left
  intro a _
  by_cases hc : (idOf a == idOf u) = true
  · simp only [Function.comp_apply, if_pos hc]
    exact (beq_iff_eq.mp hc).symm
  · simp only [Function.comp_apply, if_neg hc]

/-- Saving `w2` over its original `w` preserves the one-active-per-pair
invariant provided `w2` is inactive, or keeps the day of `w`, or moves to a
day with no active row for the same user. -/
theorem apu_save {ws : List WorkoutDayEntity} {w w2 : WorkoutDayEntity}
    (hapu : ActivePairUnique ws) (hmem : w ∈ ws)
    (hid : w2.id = w.id) (huid : w2.userId = w.userId)
    (hcase : w2.isActive = false ∨
      (w.isActive = true ∧
        (w2.dayOfWeek = w.dayOfWeek ∨
          ∀ v ∈ ws, v.userId = w.userId → v.dayOfWeek = w2.dayOfWeek →
            v.isActive = true → False))) :
    ActivePairUnique (Repo.save WorkoutDayEntity.id ws w2) := by
  intro m1 hm1 m2 hm2 hu hd h1 h2
  rcases mem_save _ _ _ _ hm1 with he1 | ⟨hm1l, _⟩ <;>
    rcases mem_save _ _ _ _ hm2 with he2 | ⟨hm2l, hm2ne⟩
  · rw [he1, he2]
  · subst he1
    rcases hcase with hF | ⟨hwact, hday⟩
    · rw [hF] at h1
      exact absurd h1 (by simp)
    · rcases hday with hde | hnone
      · have hrel := hapu w hmem m2 hm2l (by rw [← huid]; exact hu)
          (by rw [← hde]; exact hd) hwact h2
        rw [hid, hrel]
      · exact absurd h2 (by
          intro hcon
          exact hnone m2 hm2l (by rw [← hu, huid]) hd.symm hcon)
  · subst he2
    rcases hcase with hF | ⟨hwact, hday⟩
    · rw [hF] at h2
      exact absurd h2 (by simp)
    · rcases hday with hde | hnone
      · have hrel := hapu m1 hm1l w hmem (by rw [hu, huid])
          (by rw [hd, hde]) h1 hwact
        rw [hrel, hid]
      · exact absurd h1 (by
          intro hcon
          exact hnone m1 hm1l (by rw [hu, huid]) hd hcon)
  · exact hapu m1 hm1l m2 hm2l hu hd h1 h2

/-- Saving a row that keeps its id preserves the primary-key invariants. -/
theorem idsok_save (s : Store) (w w2 : WorkoutDayEntity)
    (hids : WorkoutIdsOk s) (hmem : w ∈ s.workouts) (hid : w2.id = w.id) :
    WorkoutIdsOk
      { s with workouts := Repo.save WorkoutDayEntity.id s.workouts w2 } := by
  constructor
  · show ((Repo.save WorkoutDayEntity.id s.workouts w2).map
      WorkoutDayEntity.id).Nodup
    rw [save_map_ids]
    exact hids.1
  · intro m hm
    rcases mem_save _ _ _ _ hm with he | ⟨hml, _⟩
    · rw [he]
      show w2.id < s.nextWorkoutId
      rw [hid]
      exact hids.2 w hmem
    · exact hids.2 m hml

/-- `WorkoutDaysService.create` preserves the primary-key invariants and the
one-active-per-pair invariant. -/
theorem preserve_create (s : Store) (dto : CreateWorkoutDayDto) (now : Nat)
    (hids : WorkoutIdsOk s) (hapu : ActivePairUnique s.workouts) :
    WorkoutIdsOk (WorkoutDaysService.create s dto now).2 ∧
    ActivePairUnique (WorkoutDaysService.create s dto now).2.workouts := by
  rcases hu : WorkoutDaysService.findActiveUser s dto.userId with _ | x
  · simp only [WorkoutDaysService.create, hu]
    exact ⟨hids, hapu⟩
  · rcases hw : s.workouts.find? (fun w =>
        w.userId == dto.userId && w.dayOfWeek == dto.dayOfWeek && w.isActive)
      with _ | y
    · simp only [WorkoutDaysService.create, hu, hw]
      have hnone := List.find?_eq_none.mp hw
      constructor
      · constructor
        · show ((s.workouts ++ _).map WorkoutDayEntity.id).Nodup
          rw [List.map_append]
          refine List.Nodup.append hids.1 (List.nodup_singleton _) ?_
          intro a ha hb
          simp only [List.map_cons, List.map_nil, List.mem_singleton] at hb
          rcases List.mem_map.mp ha with ⟨v, hv, hvid⟩
          have := hids.2 v hv
          omega
        · intro z hz
          rcases List.mem_append.mp hz with hz | hz
          · have := hids.2 z hz
            show z.id < s.nextWorkoutId + 1
            omega
          · simp only [List.mem_singleton] at hz
            rw [hz]
            show s.nextWorkoutId < s.nextWorkoutId + 1
            omega
      · intro m1 hm1 m2 hm2 hu' hd' h1 h2
        rcases List.mem_append.mp hm1 with hm1 | hm1 <;>
          rcases List.mem_append.mp hm2 with hm2 | hm2
        · exact hapu m1 hm1 m2 hm2 hu' hd' h1 h2
        · simp only [List.mem_singleton] at hm2
          exfalso
          refine hnone m1 hm1 ?_
          have e1 : m1.userId = dto.userId := by rw [hu', hm2]
          have e2 : m1.dayOfWeek = dto.dayOfWeek := by rw [hd', hm2]
          simp [e1, e2, h1]
        · simp only [List.mem_singleton] at hm1
          exfalso
          refine hnone m2 hm2 ?_
          have e1 : m2.userId = dto.userId := by rw [← hu', hm1]
          have e2 : m2.dayOfWeek = dto.dayOfWeek := by rw [← hd', hm1]
          simp [e1, e2, h2]
        · simp only [List.mem_singleton] at hm1 hm2
          rw [hm1, hm2]
    · simp only [WorkoutDaysService.create, hu, hw]
      exact ⟨hids, hapu⟩

/-- `WorkoutDaysService.remove` preserves the primary-key invariants and the
one-active-per-pair invariant. -/
theorem preserve_remove (s : Store) (id : Option Nat) (now : Nat)
    (hids : WorkoutIdsOk s) (hapu : ActivePairUnique s.workouts) :
    WorkoutIdsOk (WorkoutDaysService.remove s id now).2 ∧
    ActivePairUnique (WorkoutDaysService.remove s id now).2.workouts := by
  cases id with
  | none => exact ⟨hids, hapu⟩
  | some i =>
    rcases hf : s.workouts.find? (fun w => w.id == i) with _ | w
    · simp only [WorkoutDaysService.remove, hf]
      exact ⟨hids, hapu⟩
    · have hmem := List.mem_of_find?_eq_some hf
      by_cases hact : w.isActive = true
      · simp only [WorkoutDaysService.remove, hf, hact, if_true]
        exact ⟨idsok_save s w (w.deactivate now) hids hmem rfl,
          apu_save hapu hmem rfl rfl (Or.inl rfl)⟩
      · simp only [WorkoutDaysService.remove, hf, hact, if_false]
        exact ⟨hids, hapu⟩

/-- `WorkoutDaysService.update` with a validated `dayOfWeek` and without
`isActive: true` preserves the primary-key invariants and the
one-active-per-pair invariant. -/
theorem preserve_update (s : Store) (id : Option Nat)
    (d : UpdateWorkoutDayDto) (now : Nat)
    (hval : ValidDayField d.dayOfWeek) (hna : d.isActive ≠ some true)
    (hids : WorkoutIdsOk s) (hapu : ActivePairUnique s.workouts) :
    WorkoutIdsOk (WorkoutDaysService.update s id d now).2 ∧
    ActivePairUnique (WorkoutDaysService.update s id d now).2.workouts := by
  cases id with
  | none => exact ⟨hids, hapu⟩
  | some i =>
    rcases hf : s.workouts.find? (fun w => w.id == i) with _ | w
    · simp only [WorkoutDaysService.update, hf]
      exact ⟨hids, hapu⟩
    · have hmem := List.mem_of_find?_eq_some hf
      have hwid : (w.id == i) = true := by
        have h2 := List.find?_some hf
        exact h2
      -- the row written back when the update proceeds
      have hAct : ({ WorkoutDaysService.applyWorkoutUpdate w d with
            updatedAt := now } : WorkoutDayEntity).isActive = false ∨
          (({ WorkoutDaysService.applyWorkoutUpdate w d with
            updatedAt := now } : WorkoutDayEntity).isActive = w.isActive ∧
            w.isActive = true) := by
        show d.isActive.getD w.isActive = false ∨
          (d.isActive.getD w.isActive = w.isActive ∧ w.isActive = true)
        cases hia : d.isActive with
        | none =>
          cases hwact : w.isActive with
          | false => left; simp
          | true => right; simp
        | some b =>
          cases b with
          | true => exact absurd hia hna
          | false => left; simp
      cases hd : d.dayOfWeek with
      | none =>
        simp only [WorkoutDaysService.update, hf, hd]
        refine ⟨idsok_save s w _ hids hmem rfl, apu_save hapu hmem rfl rfl ?_⟩
        rcases hAct with hA | ⟨hA, hwact⟩
        · exact Or.inl hA
        · refine Or.inr ⟨hwact, Or.inl ?_⟩
          show d.dayOfWeek.getD w.dayOfWeek = w.dayOfWeek
          rw [hd]
          rfl
      | some dow =>
        have hrange := hval dow hd
        by_cases hcond : (dow != 0 && dow != w.dayOfWeek) = true
        · rcases hv : s.workouts.find? (fun v =>
              v.userId == w.userId && v.dayOfWeek == dow && v.isActive)
            with _ | v
          · have hnone := List.find?_eq_none.mp hv
            simp only [WorkoutDaysService.update, hf, hd, hcond, if_true, hv]
            refine ⟨idsok_save s w _ hids hmem rfl,
              apu_save hapu hmem rfl rfl ?_⟩
            rcases hAct with hA | ⟨hA, hwact⟩
            · exact Or.inl hA
            · refine Or.inr ⟨hwact, Or.inr ?_⟩
              intro v hvmem hvu hvd hvact
              refine hnone v hvmem ?_
              have hvd2 : v.dayOfWeek = dow := by
                rw [hvd]
                show d.dayOfWeek.getD w.dayOfWeek = dow
                rw [hd]
                rfl
              simp [hvu, hvd2, hvact]
          · by_cases hvi : (v.id != i) = true
            · simp only [WorkoutDaysService.update, hf, hd, hcond, if_true,
                hv, hvi]
              exact ⟨hids, hapu⟩
            · exfalso
              have hvid : v.id = i := by simpa using hvi
              have hvmem := List.mem_of_find?_eq_some hv
              have hvpred : (v.userId == w.userId && v.dayOfWeek == dow &&
                  v.isActive) = true := by
                have h2 := List.find?_some hv
                exact h2
              have hvw : v = w := by
                refine List.inj_on_of_nodup_map hids.1 hvmem hmem ?_
                show v.id = w.id
                rw [hvid, beq_iff_eq.mp hwid]
              have hdaow : v.dayOfWeek = dow := by
                simp only [Bool.and_eq_true, beq_iff_eq] at hvpred
                exact hvpred.1.2
              have : (dow != w.dayOfWeek) = true := by
                simp only [Bool.and_eq_true] at hcond
                exact hcond.2
              rw [bne_iff_ne] at this
              exact this (by rw [← hdaow, hvw])
        · simp only [WorkoutDaysService.update, hf, hd, hcond]
          have hdw : dow = w.dayOfWeek := by
            simp only [Bool.and_eq_true, not_and, bne_iff_ne, ne_eq,
              Decidable.not_not] at hcond
            by_cases h0 : dow = 0
            · omega
            · exact hcond (by simpa using h0)
          refine ⟨idsok_save s w _ hids hmem rfl, apu_save hapu hmem rfl rfl ?_⟩
          rcases hAct with hA | ⟨hA, hwact⟩
          · exact Or.inl hA
          · refine Or.inr ⟨hwact, Or.inl ?_⟩
            show d.dayOfWeek.getD w.dayOfWeek = w.dayOfWeek
            rw [hd]
            show dow = w.dayOfWeek
            exact hdw

/-- Both invariants hold in every store reachable (per `WorkoutReach`) from a
store satisfying them. -/
theorem reach_inv (s s' : Store) (hids : WorkoutIdsOk s)
    (hapu : ActivePairUnique s.workouts) (hr : WorkoutReach s s') :
    WorkoutIdsOk s' ∧ ActivePairUnique s'.workouts := by
  induction hr with
  | refl => exact ⟨hids, hapu⟩
  | create t dto now _ ih => exact preserve_create t dto now ih.1 ih.2
  | update t id d now hv hna _ ih =>
    exact preserve_update t id d now hv hna ih.1 ih.2
  | remove t id now _ ih => exact preserve_remove t id now ih.1 ih.2

/-- C2 counterexample: starting from a store satisfying the invariant, the
claimed operation sequence create → remove → create → update runs with every
call succeeding (in particular the final update raises no Conflict), yet the
final store holds TWO active workouts for the same `(userId, dayOfWeek)`
pair: an update that merely supplies `isActive: true` re-activates a
soft-deleted row without any day-of-week conflict check. -/
theorem c2_counterexample :
    ActivePairUnique c2Store.workouts ∧
    c2Run1.1.isOk = true ∧ c2Run2.1.isOk = true ∧ c2Run3.1.isOk = true ∧
    isConflict c2Run4.1 = false ∧ c2Run4.1.isOk = true ∧
    c2Run4.2.workouts.map (fun w => (w.id, w.userId, w.dayOfWeek, w.isActive))
      = [(1, 1, 1, true), (2, 1, 1, true)] ∧
    ¬ ActivePairUnique c2Run4.2.workouts := by
  refine ⟨?_, by decide, by decide, by decide, by decide, by decide,
    by decide, ?_⟩
  · unfold ActivePairUnique
    decide
  · unfold ActivePairUnique
    decide

/-- C2 (amended): (1) the at-most-one-active-WorkoutDay-per-(user, day) pair
invariant is preserved by every create and remove, and by every update whose
validated DTO does not supply `isActive: true` — reactivating updates are the
single exception, as the counterexample shows; (2) a create aimed at a pair
that already has an active workout (with the owning user active, so that the
owner check passes first) fails with Conflict and leaves the store
unchanged. -/
theorem c2_activePair_invariant :
    (∀ s s' : Store, WorkoutIdsOk s → ActivePairUnique s.workouts →
      WorkoutReach s s' → ActivePairUnique s'.workouts) ∧
    (∀ (s : Store) (dto : CreateWorkoutDayDto) (now : Nat),
      (WorkoutDaysService.findActiveUser s dto.userId).isSome = true →
      (∃ w ∈ s.workouts, w.userId = dto.userId ∧ w.dayOfWeek = dto.dayOfWeek ∧
        w.isActive = true) →
      WorkoutDaysService.create s dto now =
        (.error (.conflict ("Ya existe un entrenamiento activo para el " ++
          getDayName (Int.ofNat dto.dayOfWeek))), s)) := by
  constructor
  · intro s s' h1 h2 hr
    exact (reach_inv s s' h1 h2 hr).2
  · intro s dto now hu hex
    rcases Option.isSome_iff_exists.mp hu with ⟨x, hx⟩
    rcases hex with ⟨w, hwmem, h1, h2, h3⟩
    have hsome : ∃ v, s.workouts.find? (fun v =>
        v.userId == dto.userId && v.dayOfWeek == dto.dayOfWeek && v.isActive)
        = some v := by
      rcases hfind : s.workouts.find? (fun v =>
          v.userId == dto.userId && v.dayOfWeek == dto.dayOfWeek && v.isActive)
        with _ | v
      · exfalso
        exact List.find?_eq_none.mp hfind w hwmem (by simp [h1, h2, h3])
      · exact ⟨v, hfind⟩
    rcases hsome with ⟨v, hv⟩
    simp only [WorkoutDaysService.create, hx, hv]

/-- C2 witness: the invariant part applied across a one-step reachable store,
and the conflict part applied at a store already holding an active Monday
workout for user 1. -/
theorem c2_activePair_invariant_witness :
    ActivePairUnique
      (WorkoutDaysService.create c2Store mondayCreate 1).2.workouts ∧
    WorkoutDaysService.create removalStore mondayCreate 9 =
      (.error (.conflict ("Ya existe un entrenamiento activo para el " ++
        getDayName (Int.ofNat mondayCreate.dayOfWeek))), removalStore) :=
  ⟨c2_activePair_invariant.1 c2Store _
      (by unfold WorkoutIdsOk; decide)
      (by unfold ActivePairUnique; decide)
      (WorkoutReach.create c2Store c2Store mondayCreate 1
        (WorkoutReach.refl c2Store)),
   c2_activePair_invariant.2 removalStore mondayCreate 9 (by decide)
      ⟨mondayWorkout, by decide, rfl, rfl, rfl⟩⟩

/-- C9: whenever any of the six service mutators (create, update, remove on
either resource) throws — BadRequest, NotFound or Conflict — the store after
the call is exactly the store before it: every validity and conflict check
precedes every write. -/
theorem c9_error_leaves_store_unchanged :
    (∀ (s : Store) (dto : CreateUserDto) (now : Nat) (e : Err),
      (UsersService.create s dto now).1 = .error e →
      (UsersService.create s dto now).2 = s) ∧
    (∀ (s : Store) (id : Option Nat) (d : UpdateUserDto) (now : Nat) (e : Err),
      (UsersService.update s id d now).1 = .error e →
      (UsersService.update s id d now).2 = s) ∧
    (∀ (s : Store) (id : Option Nat) (now : Nat) (e : Err),
      (UsersService.remove s id now).1 = .error e →
      (UsersService.remove s id now).2 = s) ∧
    (∀ (s : Store) (dto : CreateWorkoutDayDto) (now : Nat) (e : Err),
      (WorkoutDaysService.create s dto now).1 = .error e →
      (WorkoutDaysService.create s dto now).2 = s) ∧
    (∀ (s : Store) (id : Option Nat) (d : UpdateWorkoutDayDto) (now : Nat)
        (e : Err),
      (WorkoutDaysService.update s id d now).1 = .error e →
      (WorkoutDaysService.update s id d now).2 = s) ∧
    (∀ (s : Store) (id : Option Nat) (now : Nat) (e : Err),
      (WorkoutDaysService.remove s id now).1 = .error e →
      (WorkoutDaysService.remove s id now).2 = s) :=
  ⟨fun s dto now e h => error_leaves _ s (usersCreate_cases s dto now) e h,
   fun s id d now e h => error_leaves _ s (usersUpdate_cases s id d now) e h,
   fun s id now e h => error_leaves _ s (usersRemove_cases s id now) e h,
   fun s dto now e h => error_leaves _ s (workoutsCreate_cases s dto now) e h,
   fun s id d now e h => error_leaves _ s (workoutsUpdate_cases s id d now) e h,
   fun s id now e h => error_leaves _ s (workoutsRemove_cases s id now) e h⟩

/-- C9 witness: each of the six conjuncts applied at a concrete erroring
call — a duplicate-email create, a `NaN`-id update, a remove of a missing id,
a create with an inactive owner, a day-conflicting update, and a repeated
remove. -/
theorem c9_error_leaves_store_unchanged_witness :
    ((UsersService.create anaStore
        { name := "X", email := "ana@email.com", age := 1 } 9).2 = anaStore) ∧
    ((UsersService.update anaStore none emptyUserUpdate 9).2 = anaStore) ∧
    ((UsersService.remove anaStore (some 77) 9).2 = anaStore) ∧
    ((WorkoutDaysService.create inactiveOnlyStore mondayCreate 9).2 =
      inactiveOnlyStore) ∧
    ((WorkoutDaysService.update removalStore none emptyWorkoutUpdate 9).2 =
      removalStore) ∧
    ((WorkoutDaysService.remove removalStore (some 77) 9).2 = removalStore) :=
  ⟨c9_error_leaves_store_unchanged.1 anaStore
      { name := "X", email := "ana@email.com", age := 1 } 9
      (.conflict "Ya existe un usuario con el email ana@email.com") rfl,
   c9_error_leaves_store_unchanged.2.1 anaStore none emptyUserUpdate 9
      (.badRequest "ID debe ser un número válido") rfl,
   c9_error_leaves_store_unchanged.2.2.1 anaStore (some 77) 9
      (.notFound "Usuario con ID 77 no encontrado") rfl,
   c9_error_leaves_store_unchanged.2.2.2.1 inactiveOnlyStore mondayCreate 9
      (.notFound "Usuario con ID 1 no encontrado o no está activo") rfl,
   c9_error_leaves_store_unchanged.2.2.2.2.1 removalStore none
      emptyWorkoutUpdate 9 (.badRequest "ID debe ser un número válido") rfl,
   c9_error_leaves_store_unchanged.2.2.2.2.2 removalStore (some 77) 9
      (.notFound "Día de entrenamiento con ID 77 no encontrado") rfl⟩

end NutriFit
